import Mathlib

set_option maxHeartbeats 1000000

namespace ParalympicsApp

/-!  Shallow embedding of `paralympics_app/__init__.py`.

A pandas DataFrame is modelled as a list of (index, row) pairs; `read_csv`
produces the default RangeIndex `0..n-1` via `List.enum`.  A missing value
(NaN; an empty CSV field reads as NaN) is `none`. -/

/-- A CSV / DataFrame cell; `none` models a missing value (pandas NaN). -/
abbrev Cell := Option String

/-- A CSV / DataFrame row, one cell per column. -/
abbrev Row := List Cell

/-- Errors a load can raise.  The first three are what `pd.read_csv` raises for
a missing, unreadable, or malformed file.  `dataLoadError` is modelled from the
spec: the spec names a `DataLoadError` class; no code in the module defines or
raises it, so the constructor exists only to state the spec's claim. -/
inductive PdError where
  | fileNotFoundError
  | osError
  | parserError
  | dataLoadError
deriving DecidableEq, Repr

/-- The condition of a CSV file on disk, as seen by one read. -/
inductive CsvRead (α : Type) where
  | missing
  | unreadable
  | malformed
  | ok (data : α)
deriving DecidableEq, Repr

/-- Embeds `pd.read_csv`: returns the parsed data or raises. -/
def readCsv : CsvRead α → Except PdError α
  | .missing => .error .fileNotFoundError
  | .unreadable => .error .osError
  | .malformed => .error .parserError
  | .ok d => .ok d

/-- Embeds `df.dropna(axis=0)` on the single-column `region` frame: drop rows whose
cell is missing. -/
def dropna1 (df : List (Nat × Cell)) : List (Nat × Cell) :=
  df.filter (fun p => p.2.isSome)

/-- Embeds `df.drop_duplicates(subset=['region'], keep='first')`: keep a row only if
its cell value has not been seen before; `seen` accumulates the values kept. -/
def drop_duplicates_first (seen : List Cell) : List (Nat × Cell) → List (Nat × Cell)
  | [] => []
  | p :: rest =>
    if p.2 ∈ seen then drop_duplicates_first seen rest
    else p :: drop_duplicates_first (p.2 :: seen) rest

/-- Embeds `df.reset_index(drop=True)`: discard the index and renumber `0..k-1`. -/
def reset_index (df : List (Nat × α)) : List (Nat × α) :=
  (df.map Prod.snd).enum

/-- Embeds `df['id'] = df.index` followed by `to_sql(..., index=False)`: each written
row is the data columns together with an `id` column equal to the index. -/
def assign_id (df : List (Nat × α)) : List (α × Nat) :=
  df.map (fun p => (p.2, p.1))

/-- The frame `add_noc_data` writes to table `region`, as a function of the
`region` column read with `usecols=['region']`. -/
def noc_table (col : List Cell) : List (Cell × Nat) :=
  assign_id (reset_index (drop_duplicates_first [] (dropna1 col.enum)))

/-- A row with no missing value in any column. -/
def row_complete (r : Row) : Bool := r.all Option.isSome

/-- Embeds `df.dropna(axis=0)` on the medals frame: drop rows with any missing cell. -/
def dropna_rows (df : List (Nat × Row)) : List (Nat × Row) :=
  df.filter (fun p => row_complete p.2)

/-- The frame `add_medals_data` writes to table `medals`.  Note: the source has
no `reset_index`, so the `id` column keeps the original row positions. -/
def medals_table (rows : List Row) : List (Row × Nat) :=
  assign_id (dropna_rows rows.enum)

/-- The database the module-global `db` binding's engine points at; `to_sql`
with `if_exists='replace'` overwrites a field outright.  `schemaCreated`
stands for the ORM tables `db.create_all` ensures. -/
structure Db where
  region : Option (List (Cell × Nat)) := none
  medals : Option (List (Row × Nat)) := none
  schemaCreated : Bool := false
deriving DecidableEq, Repr

/-- The value passed for the `db_name` parameter (the SQLAlchemy object the
caller hands in); the functions never consult it. -/
abbrev DbHandle := String

/-- The contents of the two fixed bundled CSV paths
(`data/noc_regions.csv` read with `usecols=['region']`, and
`data/all_medals.csv`). -/
structure Env where
  nocCsv : CsvRead (List Cell)
  medalsCsv : CsvRead (List Row)
deriving DecidableEq

/-- Embeds `add_noc_data(db_name)`: read the bundled noc CSV (region column only),
dropna, drop duplicate regions keeping the first, reset the index, assign the
index as `id`, and replace table `region`.  A read failure propagates before
any write.  `db_name` is accepted but never used. -/
def add_noc_data (db_name : DbHandle) (env : Env) (db : Db) :
    Except PdError Unit × Db :=
  match readCsv env.nocCsv with
  | .error e => (.error e, db)
  | .ok col => (.ok (), { db with region := some (noc_table col) })

/-- Embeds `add_medals_data(db_name)`: read the bundled medals CSV, dropna, assign the
(un-reset) index as `id`, and replace table `medals`.  A read failure
propagates before any write.  `db_name` is accepted but never used. -/
def add_medals_data (db_name : DbHandle) (env : Env) (db : Db) :
    Except PdError Unit × Db :=
  match readCsv env.medalsCsv with
  | .error e => (.error e, db)
  | .ok rows => (.ok (), { db with medals := some (medals_table rows) })

/-- Spec-side: the distinct values of a list, keeping the first occurrence of
each and preserving order. -/
def firstOccurrences [DecidableEq α] : List α → List α
  | [] => []
  | x :: xs => x :: (firstOccurrences xs).filter (fun a => a != x)

/-- Accumulator form of keep-first deduplication, mirroring the `seen` set of
`drop_duplicates_first` at the level of values. -/
def dedupFirstAux [DecidableEq α] (seen : List α) : List α → List α
  | [] => []
  | x :: xs => if x ∈ seen then dedupFirstAux seen xs else x :: dedupFirstAux (x :: seen) xs

/-! ### List-level lemmas about the frame operations -/

theorem map_snd_assign_id (df : List (Nat × α)) :
    (assign_id df).map Prod.snd = df.map Prod.fst := by
  simp [assign_id]

theorem map_fst_assign_id (df : List (Nat × α)) :
    (assign_id df).map Prod.fst = df.map Prod.snd := by
  simp [assign_id]

theorem map_snd_filter_snd (p : β → Bool) (l : List (α × β)) :
    (l.filter (fun q => p q.2)).map Prod.snd = (l.map Prod.snd).filter p := by
  induction l with
  | nil => rfl
  | cons q rest ih =>
    cases hq : p q.2 <;> simp [hq, ih]

theorem filter_isSome_eq (l : List Cell) :
    l.filter Option.isSome = (l.filterMap id).map some := by
  induction l with
  | nil => rfl
  | cons c rest ih => cases c <;> simp [ih]

theorem map_snd_drop_dup (seen : List Cell) (df : List (Nat × Cell)) :
    (drop_duplicates_first seen df).map Prod.snd = dedupFirstAux seen (df.map Prod.snd) := by
  induction df generalizing seen with
  | nil => rfl
  | cons p rest ih =>
    by_cases h : p.2 ∈ seen <;>
      simp [drop_duplicates_first, dedupFirstAux, h, ih]

theorem dedupFirstAux_map_some (seen : List String) (l : List String) :
    dedupFirstAux (seen.map some) (l.map some) = (dedupFirstAux seen l).map some := by
  induction l generalizing seen with
  | nil => rfl
  | cons x xs ih =>
    by_cases h : x ∈ seen
    · have h' : (some x : Cell) ∈ seen.map some := List.mem_map_of_mem some h
      simp [dedupFirstAux, h, h', ih]
    · have h' : (some x : Cell) ∉ seen.map some := by simpa using h
      have hrec := ih (x :: seen)
      simp [dedupFirstAux, h, h']
      simpa using hrec

theorem dedupFirstAux_eq_filter [DecidableEq α] (l : List α) (seen : List α) :
    dedupFirstAux seen l = (firstOccurrences l).filter (fun a => decide (a ∉ seen)) := by
  induction l generalizing seen with
  | nil => rfl
  | cons x xs ih =>
    by_cases h : x ∈ seen
    · simp only [dedupFirstAux, firstOccurrences, if_pos h, List.filter_cons]
      have hx : decide (x ∉ seen) = false := by simp [h]
      rw [hx]
      simp only [Bool.false_eq_true, if_neg (by simp [h] : ¬ (decide (x ∉ seen) = true))]
      rw [ih, List.filter_filter]
      refine List.filter_congr ?_
      intro a _
      by_cases ha : a ∈ seen
      · simp [ha]
      · simp [ha]
        intro contra
        exact absurd (contra ▸ h) ha
    · simp only [dedupFirstAux, firstOccurrences, if_neg h, List.filter_cons]
      have hx : decide (x ∉ seen) = true := by simp [h]
      rw [hx]
      simp only [if_pos rfl]
      rw [ih, List.filter_filter]
      congr 1
      refine List.filter_congr ?_
      intro a _
      by_cases ha : a = x
      · simp [ha, List.mem_cons]
      · simp [List.mem_cons, ha]

theorem dedupFirstAux_nil_eq [DecidableEq α] (l : List α) :
    dedupFirstAux [] l = firstOccurrences l := by
  rw [dedupFirstAux_eq_filter]
  simp

theorem firstOccurrences_nodup [DecidableEq α] (l : List α) :
    (firstOccurrences l).Nodup := by
  induction l with
  | nil => exact List.nodup_nil
  | cons x xs ih =>
    refine List.nodup_cons.mpr ⟨?_, ih.filter _⟩
    intro hmem
    have := List.of_mem_filter hmem
    simp at this

theorem noc_table_map_fst (col : List Cell) :
    (noc_table col).map Prod.fst = (firstOccurrences (col.filterMap id)).map some := by
  have h1 : (dropna1 col.enum).map Prod.snd = (col.filterMap id).map some := by
    have : dropna1 col.enum = col.enum.filter (fun q => Option.isSome q.2) := rfl
    rw [this, map_snd_filter_snd, List.enum_map_snd, filter_isSome_eq]
  calc (noc_table col).map Prod.fst
      = ((drop_duplicates_first [] (dropna1 col.enum)).map Prod.snd) := by
        simp [noc_table, map_fst_assign_id, reset_index, List.enum_map_snd]
    _ = dedupFirstAux [] ((dropna1 col.enum).map Prod.snd) := map_snd_drop_dup _ _
    _ = dedupFirstAux (([] : List String).map some) ((col.filterMap id).map some) := by
        rw [h1]; rfl
    _ = (dedupFirstAux [] (col.filterMap id)).map some := dedupFirstAux_map_some _ _
    _ = (firstOccurrences (col.filterMap id)).map some := by rw [dedupFirstAux_nil_eq]

theorem noc_table_map_snd (col : List Cell) :
    (noc_table col).map Prod.snd = List.range (noc_table col).length := by
  have hlen : (noc_table col).length
      = ((drop_duplicates_first [] (dropna1 col.enum)).map Prod.snd).length := by
    simp [noc_table, assign_id, reset_index]
  rw [hlen]
  simp [noc_table, map_snd_assign_id, reset_index, List.enum_map_fst]

theorem medals_table_map_fst (rows : List Row) :
    (medals_table rows).map Prod.fst = rows.filter row_complete := by
  have : dropna_rows rows.enum = rows.enum.filter (fun q => row_complete q.2) := rfl
  rw [medals_table, map_fst_assign_id, this, map_snd_filter_snd, List.enum_map_snd]

theorem mem_medals_table (rows : List Row) (pr : Row × Nat) (h : pr ∈ medals_table rows) :
    rows[pr.2]? = some pr.1 := by
  rw [medals_table, assign_id, List.mem_map] at h
  obtain ⟨q, hq, hpr⟩ := h
  have hq' : q ∈ rows.enum := List.mem_of_mem_filter hq
  have henum : (q.1, q.2) ∈ List.enumFrom 0 rows := hq'
  obtain ⟨-, hlt, hval⟩ := List.mem_enumFrom henum
  subst hpr
  simp only [Nat.zero_add] at hlt
  simp only [Nat.sub_zero] at hval
  rw [List.getElem?_eq_getElem hlt, hval]

theorem medals_table_ids_increasing (rows : List Row) :
    ((medals_table rows).map Prod.snd).Pairwise (· < ·) := by
  rw [medals_table, map_snd_assign_id]
  have hsub : (dropna_rows rows.enum).Sublist rows.enum := List.filter_sublist _
  have hmap : ((dropna_rows rows.enum).map Prod.fst).Sublist (rows.enum.map Prod.fst) :=
    List.Sublist.map Prod.fst hsub
  rw [List.enum_map_fst] at hmap
  exact List.Pairwise.sublist hmap (List.pairwise_lt_range rows.length)

/-! ### Claims C1 and C2: the two Data Loader writes -/

/-- An empty database (fresh engine). -/
def db0 : Db := {}

/-- Filesystem state for exercising `add_noc_data` on the spec's example. -/
def envC1 : Env :=
  { nocCsv := .ok [some "UK", some "UK", some "FR", none], medalsCsv := .missing }

/-- C1: after `add_noc_data` runs on a readable CSV source, table `region`
holds exactly the distinct non-null region names of the source (first
occurrences kept, missing values dropped), its `id` column is exactly
`0..n-1` with no gaps where `n` is the number of distinct non-null names, and
on the source `["UK","UK","FR",missing]` the output is exactly
`[(UK,0),(FR,1)]`. -/
theorem add_noc_data_correct (d : DbHandle) (env : Env) (db : Db)
    (col : List Cell) (h : env.nocCsv = .ok col) :
    ∃ t, (add_noc_data d env db).2.region = some t ∧
      t.map Prod.snd = List.range t.length ∧
      t.map Prod.fst = (firstOccurrences (col.filterMap id)).map some ∧
      (t.map Prod.fst).Nodup ∧
      (∀ c ∈ t.map Prod.fst, c ≠ none) ∧
      t.length = (firstOccurrences (col.filterMap id)).length ∧
      (col = [some "UK", some "UK", some "FR", none] →
        t = [(some "UK", 0), (some "FR", 1)]) := by
  refine ⟨noc_table col, ?_, noc_table_map_snd col, noc_table_map_fst col, ?_, ?_, ?_, ?_⟩
  · simp [add_noc_data, readCsv, h]
  · rw [noc_table_map_fst]
    exact (firstOccurrences_nodup _).map (Option.some_injective String)
  · rw [noc_table_map_fst]
    intro c hc
    rw [List.mem_map] at hc
    obtain ⟨a, -, ha⟩ := hc
    rw [← ha]
    exact Option.some_ne_none a
  · have := congrArg List.length (noc_table_map_fst col)
    simpa using this
  · intro hcol
    subst hcol
    decide

/-- Witness for C1 at the spec's own example source. -/
theorem add_noc_data_correct_witness :
    ∃ t, (add_noc_data "db" envC1 db0).2.region = some t ∧
      t.map Prod.snd = List.range t.length ∧
      t.map Prod.fst
        = (firstOccurrences (([some "UK", some "UK", some "FR", none] : List Cell).filterMap id)).map some ∧
      (t.map Prod.fst).Nodup ∧
      (∀ c ∈ t.map Prod.fst, c ≠ none) ∧
      t.length = (firstOccurrences (([some "UK", some "UK", some "FR", none] : List Cell).filterMap id)).length ∧
      (([some "UK", some "UK", some "FR", none] : List Cell)
          = [some "UK", some "UK", some "FR", none] →
        t = [(some "UK", 0), (some "FR", 1)]) :=
  add_noc_data_correct "db" envC1 db0 [some "UK", some "UK", some "FR", none] rfl

/-- Filesystem state with a medals CSV whose middle row has a missing value. -/
def envC2 : Env :=
  { nocCsv := .missing, medalsCsv := .ok [[some "a"], [none], [some "b"]] }

/-- C2 counterexample: on a source whose second row has a missing value, the
written `id` column is `[0, 2]`, not the gapless `0..m-1 = [0, 1]` the claim
requires (`m = 2` fully-populated rows) — the source never resets the index
after `dropna`. -/
theorem add_medals_data_counterexample :
    (add_medals_data "db" envC2 db0).2.medals = some [([some "a"], 0), ([some "b"], 2)]
    ∧ ¬ ([([some "a"], 0), ([some "b"], 2)] : List (Row × Nat)).map Prod.snd
        = List.range (([[some "a"], [none], [some "b"]] : List Row).filter row_complete).length :=
  ⟨by decide, by decide⟩

/-- C2 as amended: after `add_medals_data` runs on a readable CSV source, table
`medals` holds exactly the fully-populated source rows in order, and each
row's `id` is the zero-based position of that row in the original source
(strictly increasing, with gaps where rows were dropped); the ids are the
gapless `0..m-1` of the original claim when every source row is fully
populated. -/
theorem add_medals_data_amended (d : DbHandle) (env : Env) (db : Db)
    (rows : List Row) (h : env.medalsCsv = .ok rows) :
    ∃ t, (add_medals_data d env db).2.medals = some t ∧
      t.map Prod.fst = rows.filter row_complete ∧
      (∀ pr ∈ t, rows[pr.2]? = some pr.1) ∧
      (t.map Prod.snd).Pairwise (· < ·) ∧
      ((∀ r ∈ rows, row_complete r) → t.map Prod.snd = List.range t.length) := by
  refine ⟨medals_table rows, ?_, medals_table_map_fst rows,
    mem_medals_table rows, medals_table_ids_increasing rows, ?_⟩
  · simp [add_medals_data, readCsv, h]
  · intro hall
    have hfilt : dropna_rows rows.enum = rows.enum := by
      rw [dropna_rows]
      refine List.filter_eq_self.mpr ?_
      intro q hq
      have henum : (q.1, q.2) ∈ List.enumFrom 0 rows := hq
      obtain ⟨-, hlt, hval⟩ := List.mem_enumFrom henum
      exact hall _ (hval ▸ List.getElem_mem _)
    have hlen : (medals_table rows).length = rows.length := by
      simp [medals_table, assign_id, hfilt]
    rw [hlen, medals_table, map_snd_assign_id, hfilt, List.enum_map_fst]

/-- Witness for the amended C2 at the counterexample source. -/
theorem add_medals_data_amended_witness :
    ∃ t, (add_medals_data "db" envC2 db0).2.medals = some t ∧
      t.map Prod.fst = ([[some "a"], [none], [some "b"]] : List Row).filter row_complete ∧
      (∀ pr ∈ t, ([[some "a"], [none], [some "b"]] : List Row)[pr.2]? = some pr.1) ∧
      (t.map Prod.snd).Pairwise (· < ·) ∧
      ((∀ r ∈ ([[some "a"], [none], [some "b"]] : List Row), row_complete r) →
        t.map Prod.snd = List.range t.length) :=
  add_medals_data_amended "db" envC2 db0 [[some "a"], [none], [some "b"]] rfl

/-! ### Claims C4, C7, C9: replace semantics, failure behaviour, unused argument -/

/-- The Data Loader as `create_app` runs it: `add_noc_data(db)` then
`add_medals_data(db)`; an exception in the first stops the second. -/
def runDataLoader (d : DbHandle) (env : Env) (db : Db) : Except PdError Unit × Db :=
  match add_noc_data d env db with
  | (.error e, db1) => (.error e, db1)
  | (.ok _, db1) => add_medals_data d env db1

/-- C4: a completed Data Loader run fully replaces `region` and `medals`:
the resulting tables are the same for every prior database state, so nothing
from a previous run survives (replace, not merge). -/
theorem data_loader_replaces (d : DbHandle) (env : Env) (db db' : Db)
    (h : (runDataLoader d env db).1 = .ok ()) :
    (runDataLoader d env db).2.region = (runDataLoader d env db').2.region
    ∧ (runDataLoader d env db).2.medals = (runDataLoader d env db').2.medals := by
  obtain ⟨noc, med⟩ := env
  cases noc <;> cases med <;>
    simp [runDataLoader, add_noc_data, add_medals_data, readCsv] at h ⊢

/-- A database left over from a previous run, with different contents. -/
def dbPrev : Db :=
  { region := some [(some "OLD", 0)], medals := some [([some "x"], 0)],
    schemaCreated := true }

/-- Readable sources for exercising a full loader run. -/
def envC4 : Env := { nocCsv := .ok [some "UK"], medalsCsv := .ok [[some "g"]] }

/-- Witness for C4: a run over an empty database and one over a populated
database end with identical `region` and `medals` tables. -/
theorem data_loader_replaces_witness :
    (runDataLoader "db" envC4 db0).2.region = (runDataLoader "db" envC4 dbPrev).2.region
    ∧ (runDataLoader "db" envC4 db0).2.medals = (runDataLoader "db" envC4 dbPrev).2.medals :=
  data_loader_replaces "db" envC4 db0 dbPrev rfl

/-- Filesystem state with both CSV files missing. -/
def envMissing : Env := { nocCsv := .missing, medalsCsv := .missing }

/-- C7 counterexample: on a missing noc CSV the loader raises the reader's own
`FileNotFoundError`; no `DataLoadError` exists in the module, so the raised
error is not the `DataLoadError` the claim names. -/
theorem data_loader_error_counterexample :
    (add_noc_data "db" envMissing db0).1 = .error .fileNotFoundError
    ∧ (add_noc_data "db" envMissing db0).1 ≠ .error .dataLoadError :=
  ⟨rfl, fun h => nomatch (Except.error.inj h)⟩

/-- C7 as amended: a missing, unreadable, or malformed CSV source makes the
loader fail with the underlying read error (`FileNotFoundError`, `OSError`,
`ParserError`) — never the spec's `DataLoadError`, which the code does not
define — the failure propagates (startup-fatal), and the database is left
unchanged: the read precedes the single replace-write, so no partial table
write is observable. -/
theorem data_loader_failure_amended (d : DbHandle) (env : Env) (db : Db) :
    (env.nocCsv = .missing → add_noc_data d env db = (.error .fileNotFoundError, db)) ∧
    (env.nocCsv = .unreadable → add_noc_data d env db = (.error .osError, db)) ∧
    (env.nocCsv = .malformed → add_noc_data d env db = (.error .parserError, db)) ∧
    (env.medalsCsv = .missing → add_medals_data d env db = (.error .fileNotFoundError, db)) ∧
    (env.medalsCsv = .unreadable → add_medals_data d env db = (.error .osError, db)) ∧
    (env.medalsCsv = .malformed → add_medals_data d env db = (.error .parserError, db)) ∧
    (∀ e, (add_noc_data d env db).1 = .error e →
      (add_noc_data d env db).2 = db ∧ e ≠ .dataLoadError) ∧
    (∀ e, (add_medals_data d env db).1 = .error e →
      (add_medals_data d env db).2 = db ∧ e ≠ .dataLoadError) := by
  obtain ⟨noc, med⟩ := env
  cases noc <;> cases med <;>
    simp [add_noc_data, add_medals_data, readCsv]

/-- Witness for the amended C7 with both sources missing. -/
theorem data_loader_failure_amended_witness :
    add_noc_data "db" envMissing db0 = (.error .fileNotFoundError, db0)
    ∧ ((add_noc_data "db" envMissing db0).2 = db0
        ∧ PdError.fileNotFoundError ≠ PdError.dataLoadError) := by
  have h := data_loader_failure_amended "db" envMissing db0
  exact ⟨h.1 rfl, h.2.2.2.2.2.2.1 .fileNotFoundError rfl⟩

/-- C9: the two loader functions ignore their `db_name` argument entirely:
for every pair of argument values they perform identical reads and writes,
because the CSV path is fixed and the write goes through the module-global
`db` binding's engine. -/
theorem loaders_ignore_db_name (d1 d2 : DbHandle) (env : Env) (db : Db) :
    add_noc_data d1 env db = add_noc_data d2 env db
    ∧ add_medals_data d1 env db = add_medals_data d2 env db :=
  ⟨rfl, rfl⟩

/-! ### The Flask / Dash layer: `register_dashapp` and `_protect_dash_views` -/

/-- An incoming HTTP request, reduced to what the login guard inspects. -/
structure Request where
  authenticated : Bool
deriving DecidableEq

/-- A response: a rendered page, or the redirect `flask_login` issues when an
unauthenticated request hits a protected view. -/
inductive Response where
  | page (body : String)
  | redirectLogin
deriving DecidableEq

/-- A Flask view function. -/
abbrev Handler := Request → Response

/-- Embeds `flask_login.login_required`: pass the request through when the session is
authenticated, otherwise redirect to the login view. -/
def login_required (h : Handler) : Handler :=
  fun r => if r.authenticated then h r else .redirectLogin

/-- Flask's built-in static-file view, present in every fresh app. -/
def staticView : Handler := fun _ => .page "static"

/-- The Flask application object.  `view_functions` is the registry Flask
keys by endpoint name; `Flask(__name__)` starts with the `static` endpoint. -/
structure FlaskApp where
  config : String := ""
  view_functions : List (String × Handler) := [("static", staticView)]
  csrfEnabled : Bool := false
  dbBound : Bool := false
  uploadsConfigured : Bool := false
  blueprints : List String := []

/-- The `url_base_pathname` handed to `dash.Dash`. -/
def dashUrlBasePathname : String := "/dashboard/"

/-- The Dash config fields the module reads.  `routes_pathname_pfx` models
Dash's `routes_pathname_prefix`, which equals `url_base_pathname` when only
the latter is supplied. -/
structure DashConfig where
  url_base_pathname : String
  routes_pathname_pfx : String

/-- The Dash application: it holds the host Flask server and its config. -/
structure DashApp where
  server : FlaskApp
  config : DashConfig
  title : String := ""
  layoutSet : Bool := false
  callbacksRegistered : Bool := false

def dashIndexView : Handler := fun _ => .page "dash-index"

def dashLayoutView : Handler := fun _ => .page "dash-layout"

def dashDependenciesView : Handler := fun _ => .page "dash-dependencies"

def dashDispatchView : Handler := fun _ => .page "dash-dispatch"

/-- The view functions `dash.Dash(server=app, url_base_pathname=...)` adds to
the host Flask app.  Dash names each endpoint by its full URL path, so every
key it registers starts with the configured prefix string. -/
def dashViews : List (String × Handler) :=
  [(dashUrlBasePathname, dashIndexView),
   (dashUrlBasePathname ++ "_dash-layout", dashLayoutView),
   (dashUrlBasePathname ++ "_dash-dependencies", dashDependenciesView),
   (dashUrlBasePathname ++ "_dash-update-component", dashDispatchView)]

/-- Embeds `dash.Dash(__name__, server=app, url_base_pathname='/dashboard/', ...)`:
registers the Dash routes on the host app and records the config. -/
def dashDash (app : FlaskApp) : DashApp :=
  { server := { app with view_functions := app.view_functions ++ dashViews },
    config := { url_base_pathname := dashUrlBasePathname,
                routes_pathname_pfx := dashUrlBasePathname } }

/-- Python's `str.startswith`: the registry-name check `_protect_dash_views`
performs. -/
def startswith (s pre : String) : Bool := pre.data.isPrefixOf s.data

/-- Embeds `_protect_dash_views(dashapp)`: wrap with `login_required` every view
function whose registry name starts with `routes_pathname_prefix`; leave the
rest alone. -/
def _protect_dash_views (dash_app : DashApp) : DashApp :=
  let wrapped := dash_app.server.view_functions.map (fun p =>
    if startswith p.1 dash_app.config.routes_pathname_pfx
    then (p.1, login_required p.2) else p)
  { dash_app with server := { dash_app.server with view_functions := wrapped } }

/-- Embeds `register_dashapp(app)`: build the Dash app on the Flask server, set its
title, layout and callbacks inside an app context, then protect its views. -/
def register_dashapp (app : FlaskApp) : FlaskApp :=
  let dashapp := dashDash app
  let dashapp := { dashapp with
    title := "Dashboard"
    layoutSet := true
    callbacksRegistered := true }
  (_protect_dash_views dashapp).server

/-- C3: after `register_dashapp` (which ends by calling `_protect_dash_views`)
every registered view whose name starts with the dashboard prefix is wrapped
with the login guard: an unauthenticated request yields the redirect-to-login
response and an authenticated request reaches the original handler. -/
theorem register_dashapp_protects (app : FlaskApp) (i : Nat) (n : String)
    (h : Handler) (r : Request)
    (hget : (dashDash app).server.view_functions[i]? = some (n, h))
    (hp : startswith n dashUrlBasePathname = true) :
    (register_dashapp app).view_functions[i]? = some (n, login_required h)
    ∧ (r.authenticated = false → login_required h r = .redirectLogin)
    ∧ (r.authenticated = true → login_required h r = h r) := by
  refine ⟨?_, ?_, ?_⟩
  · have hcfg : (dashDash app).config.routes_pathname_pfx = dashUrlBasePathname := rfl
    simp [register_dashapp, _protect_dash_views, List.getElem?_map, hget, hcfg, hp]
  · intro hr; simp [login_required, hr]
  · intro hr; simp [login_required, hr]

/-- A fresh Flask app (only the static endpoint). -/
def app0 : FlaskApp := {}

/-- Witness for C3 at the dashboard index route and an unauthenticated
request. -/
theorem register_dashapp_protects_witness :
    (register_dashapp app0).view_functions[1]?
      = some ("/dashboard/", login_required dashIndexView)
    ∧ ((⟨false⟩ : Request).authenticated = false →
        login_required dashIndexView ⟨false⟩ = .redirectLogin)
    ∧ ((⟨false⟩ : Request).authenticated = true →
        login_required dashIndexView ⟨false⟩ = dashIndexView ⟨false⟩) :=
  register_dashapp_protects app0 1 "/dashboard/" dashIndexView ⟨false⟩ rfl rfl

/-- C8: `_protect_dash_views` modifies only the prefix-matching entries: any
registry entry whose name does not start with `routes_pathname_prefix` is left
exactly unchanged, at its position. -/
theorem protect_leaves_others (dash_app : DashApp) (i : Nat) (p : String × Handler)
    (hget : dash_app.server.view_functions[i]? = some p)
    (hp : startswith p.1 dash_app.config.routes_pathname_pfx = false) :
    (_protect_dash_views dash_app).server.view_functions[i]? = some p := by
  simp [_protect_dash_views, List.getElem?_map, hget, hp]

/-- Witness for C8: the `static` endpoint of a fresh app is untouched. -/
theorem protect_leaves_others_witness :
    (_protect_dash_views (dashDash app0)).server.view_functions[0]?
      = some ("static", staticView) :=
  protect_leaves_others (dashDash app0) 0 ("static", staticView) rfl rfl

/-! ### Module globals and the `create_app` bootstrap -/

/-- The `flask_wtf.csrf.CSRFProtect` state the module keeps: its private
exempt-view set (the source touches `csrf._exempt_views`). -/
structure CSRFState where
  exempt_views : List String := []
deriving DecidableEq

/-- Embeds `csrf = CSRFProtect()` followed by
`csrf._exempt_views.add('dash.dash.dispatch')`, both run at import time. -/
def csrfAtImport : CSRFState :=
  { exempt_views := List.insert "dash.dash.dispatch" ({} : CSRFState).exempt_views }

/-- The `flask_login.LoginManager` singleton. -/
structure LoginManager where
  login_view : Option String := none
deriving DecidableEq

/-- The module-level globals: the CSRF protector, the SQLAlchemy `db` binding
(through whose engine every table write goes), and the login manager. -/
structure Globals where
  csrf : CSRFState := csrfAtImport
  db : Db := {}
  login_manager : LoginManager := {}
deriving DecidableEq

/-- The module's global state right after `import paralympics_app`. -/
def moduleImport : Globals := {}

/-- Embeds `db.create_all()`: create every schema table that is absent; existing
tables are untouched. -/
def create_all (db : Db) : Db :=
  { db with
    schemaCreated := true
    region := some (db.region.getD [])
    medals := some (db.medals.getD []) }

/-- The observable startup steps of `create_app`, in source vocabulary. -/
inductive Ev where
  | configFromObject
  | mountDash
  | protectDashViews
  | csrfInit
  | dbInit
  | loginInit
  | uploadsInit
  | appContextEnter
  | createAll
  | loadNoc
  | loadMedals
  | appContextExit
  | registerMainBp
  | registerAuthBp
  | ready
deriving DecidableEq, Repr

/-- Embeds `create_app(config_class_name)`: the application factory, straight-line
except that a loader exception aborts the remaining steps (the `with` block
still releases the app context).  Returns the outcome, the module globals
afterwards, and the trace of executed steps. -/
def create_app (cfg : String) (env : Env) (g : Globals) :
    Except PdError FlaskApp × Globals × List Ev :=
  let app : FlaskApp := { config := cfg }
  let tr : List Ev := [.configFromObject]
  let app := register_dashapp app
  let tr := tr ++ [.mountDash, .protectDashViews]
  let app := { app with csrfEnabled := true }
  let tr := tr ++ [.csrfInit]
  let app := { app with dbBound := true }
  let tr := tr ++ [.dbInit]
  let g := { g with login_manager := { login_view := some "auth.login" } }
  let tr := tr ++ [.loginInit]
  let app := { app with uploadsConfigured := true }
  let tr := tr ++ [.uploadsInit]
  let tr := tr ++ [.appContextEnter]
  let g := { g with db := create_all g.db }
  let tr := tr ++ [.createAll]
  match add_noc_data "db" env g.db with
  | (.error e, db1) => (.error e, { g with db := db1 }, tr ++ [.loadNoc, .appContextExit])
  | (.ok _, db1) =>
    let g := { g with db := db1 }
    let tr := tr ++ [.loadNoc]
    match add_medals_data "db" env g.db with
    | (.error e, db2) =>
      (.error e, { g with db := db2 }, tr ++ [.loadMedals, .appContextExit])
    | (.ok _, db2) =>
      let g := { g with db := db2 }
      let tr := tr ++ [.loadMedals, .appContextExit]
      let app := { app with blueprints := app.blueprints ++ ["main"] }
      let tr := tr ++ [.registerMainBp]
      let app := { app with blueprints := app.blueprints ++ ["auth"] }
      let tr := tr ++ [.registerAuthBp]
      (.ok app, g, tr ++ [.ready])

/-- The step trace of one `create_app` run. -/
def bootTrace (cfg : String) (env : Env) (g : Globals) : List Ev :=
  (create_app cfg env g).2.2

/-- The trace of a run whose two CSV reads succeed. -/
def fullTrace : List Ev :=
  [.configFromObject, .mountDash, .protectDashViews, .csrfInit, .dbInit,
   .loginInit, .uploadsInit, .appContextEnter, .createAll, .loadNoc,
   .loadMedals, .appContextExit, .registerMainBp, .registerAuthBp, .ready]

theorem bootTrace_ok (cfg : String) (env : Env) (g : Globals)
    (col : List Cell) (rows : List Row)
    (hn : env.nocCsv = .ok col) (hm : env.medalsCsv = .ok rows) :
    bootTrace cfg env g = fullTrace := by
  obtain ⟨noc, med⟩ := env
  simp only at hn hm
  subst hn; subst hm
  simp [bootTrace, create_app, add_noc_data, add_medals_data, readCsv, fullTrace]

/-! ### Claims C5, C6, C10: bootstrap ordering and the import-time CSRF exemption -/

/-- C5: `create_app` performs its steps in the order of §4.1: the dashboard is
mounted (and protected) before the cross-cutting initialization (CSRF,
persistence binding, login manager, uploads); all of those precede the
application-context scope, inside which the schema is created and then the
Data Loader runs (both loads executed); the blueprints are registered only
after the context closes. -/
theorem create_app_step_order (cfg : String) (env : Env) (g : Globals)
    (col : List Cell) (rows : List Row)
    (hn : env.nocCsv = .ok col) (hm : env.medalsCsv = .ok rows) :
    (bootTrace cfg env g).indexOf Ev.mountDash < (bootTrace cfg env g).indexOf Ev.csrfInit
    ∧ (bootTrace cfg env g).indexOf Ev.mountDash < (bootTrace cfg env g).indexOf Ev.dbInit
    ∧ (bootTrace cfg env g).indexOf Ev.mountDash < (bootTrace cfg env g).indexOf Ev.loginInit
    ∧ (bootTrace cfg env g).indexOf Ev.mountDash < (bootTrace cfg env g).indexOf Ev.uploadsInit
    ∧ (bootTrace cfg env g).indexOf Ev.csrfInit < (bootTrace cfg env g).indexOf Ev.appContextEnter
    ∧ (bootTrace cfg env g).indexOf Ev.dbInit < (bootTrace cfg env g).indexOf Ev.appContextEnter
    ∧ (bootTrace cfg env g).indexOf Ev.loginInit < (bootTrace cfg env g).indexOf Ev.appContextEnter
    ∧ (bootTrace cfg env g).indexOf Ev.uploadsInit < (bootTrace cfg env g).indexOf Ev.appContextEnter
    ∧ (bootTrace cfg env g).indexOf Ev.appContextEnter < (bootTrace cfg env g).indexOf Ev.createAll
    ∧ (bootTrace cfg env g).indexOf Ev.createAll < (bootTrace cfg env g).indexOf Ev.loadNoc
    ∧ (bootTrace cfg env g).indexOf Ev.loadNoc < (bootTrace cfg env g).indexOf Ev.loadMedals
    ∧ (bootTrace cfg env g).indexOf Ev.loadMedals < (bootTrace cfg env g).indexOf Ev.appContextExit
    ∧ (bootTrace cfg env g).indexOf Ev.appContextExit < (bootTrace cfg env g).indexOf Ev.registerMainBp
    ∧ (bootTrace cfg env g).indexOf Ev.registerMainBp < (bootTrace cfg env g).indexOf Ev.registerAuthBp
    ∧ Ev.createAll ∈ bootTrace cfg env g
    ∧ Ev.loadNoc ∈ bootTrace cfg env g
    ∧ Ev.loadMedals ∈ bootTrace cfg env g := by
  rw [bootTrace_ok cfg env g col rows hn hm]
  decide

/-- Witness for C5 on concrete readable sources. -/
theorem create_app_step_order_witness :
    (bootTrace "Config" envC4 moduleImport).indexOf Ev.mountDash
      < (bootTrace "Config" envC4 moduleImport).indexOf Ev.csrfInit
    ∧ (bootTrace "Config" envC4 moduleImport).indexOf Ev.mountDash
      < (bootTrace "Config" envC4 moduleImport).indexOf Ev.dbInit
    ∧ (bootTrace "Config" envC4 moduleImport).indexOf Ev.mountDash
      < (bootTrace "Config" envC4 moduleImport).indexOf Ev.loginInit
    ∧ (bootTrace "Config" envC4 moduleImport).indexOf Ev.mountDash
      < (bootTrace "Config" envC4 moduleImport).indexOf Ev.uploadsInit
    ∧ (bootTrace "Config" envC4 moduleImport).indexOf Ev.csrfInit
      < (bootTrace "Config" envC4 moduleImport).indexOf Ev.appContextEnter
    ∧ (bootTrace "Config" envC4 moduleImport).indexOf Ev.dbInit
      < (bootTrace "Config" envC4 moduleImport).indexOf Ev.appContextEnter
    ∧ (bootTrace "Config" envC4 moduleImport).indexOf Ev.loginInit
      < (bootTrace "Config" envC4 moduleImport).indexOf Ev.appContextEnter
    ∧ (bootTrace "Config" envC4 moduleImport).indexOf Ev.uploadsInit
      < (bootTrace "Config" envC4 moduleImport).indexOf Ev.appContextEnter
    ∧ (bootTrace "Config" envC4 moduleImport).indexOf Ev.appContextEnter
      < (bootTrace "Config" envC4 moduleImport).indexOf Ev.createAll
    ∧ (bootTrace "Config" envC4 moduleImport).indexOf Ev.createAll
      < (bootTrace "Config" envC4 moduleImport).indexOf Ev.loadNoc
    ∧ (bootTrace "Config" envC4 moduleImport).indexOf Ev.loadNoc
      < (bootTrace "Config" envC4 moduleImport).indexOf Ev.loadMedals
    ∧ (bootTrace "Config" envC4 moduleImport).indexOf Ev.loadMedals
      < (bootTrace "Config" envC4 moduleImport).indexOf Ev.appContextExit
    ∧ (bootTrace "Config" envC4 moduleImport).indexOf Ev.appContextExit
      < (bootTrace "Config" envC4 moduleImport).indexOf Ev.registerMainBp
    ∧ (bootTrace "Config" envC4 moduleImport).indexOf Ev.registerMainBp
      < (bootTrace "Config" envC4 moduleImport).indexOf Ev.registerAuthBp
    ∧ Ev.createAll ∈ bootTrace "Config" envC4 moduleImport
    ∧ Ev.loadNoc ∈ bootTrace "Config" envC4 moduleImport
    ∧ Ev.loadMedals ∈ bootTrace "Config" envC4 moduleImport :=
  create_app_step_order "Config" envC4 moduleImport [some "UK"] [[some "g"]] rfl rfl

/-- C6 counterexample: §2 demands the schema be created (and the loader run)
before the dashboard is mounted, but in the run on readable sources the
dashboard mount precedes schema creation. -/
theorem startup_order_counterexample :
    ¬ ((bootTrace "Config" envC4 moduleImport).indexOf Ev.createAll
        < (bootTrace "Config" envC4 moduleImport).indexOf Ev.mountDash) := by
  rw [bootTrace_ok "Config" envC4 moduleImport [some "UK"] [[some "g"]] rfl rfl]
  decide

/-- C6 as amended: the actual startup order is configure the app instance,
mount the dashboard with its protection wrapper, configure the cross-cutting
services, create the schema, run the Data Loader, register the blueprints,
and only then is the instance ready to serve. -/
theorem startup_order_amended (cfg : String) (env : Env) (g : Globals)
    (col : List Cell) (rows : List Row)
    (hn : env.nocCsv = .ok col) (hm : env.medalsCsv = .ok rows) :
    (bootTrace cfg env g).indexOf Ev.configFromObject < (bootTrace cfg env g).indexOf Ev.mountDash
    ∧ (bootTrace cfg env g).indexOf Ev.mountDash < (bootTrace cfg env g).indexOf Ev.protectDashViews
    ∧ (bootTrace cfg env g).indexOf Ev.protectDashViews < (bootTrace cfg env g).indexOf Ev.csrfInit
    ∧ (bootTrace cfg env g).indexOf Ev.csrfInit < (bootTrace cfg env g).indexOf Ev.dbInit
    ∧ (bootTrace cfg env g).indexOf Ev.dbInit < (bootTrace cfg env g).indexOf Ev.loginInit
    ∧ (bootTrace cfg env g).indexOf Ev.loginInit < (bootTrace cfg env g).indexOf Ev.uploadsInit
    ∧ (bootTrace cfg env g).indexOf Ev.uploadsInit < (bootTrace cfg env g).indexOf Ev.createAll
    ∧ (bootTrace cfg env g).indexOf Ev.createAll < (bootTrace cfg env g).indexOf Ev.loadNoc
    ∧ (bootTrace cfg env g).indexOf Ev.loadNoc < (bootTrace cfg env g).indexOf Ev.loadMedals
    ∧ (bootTrace cfg env g).indexOf Ev.loadMedals < (bootTrace cfg env g).indexOf Ev.registerMainBp
    ∧ (bootTrace cfg env g).indexOf Ev.registerMainBp < (bootTrace cfg env g).indexOf Ev.registerAuthBp
    ∧ (bootTrace cfg env g).indexOf Ev.registerAuthBp < (bootTrace cfg env g).indexOf Ev.ready := by
  rw [bootTrace_ok cfg env g col rows hn hm]
  decide

/-- Witness for the amended C6 on concrete readable sources. -/
theorem startup_order_amended_witness :
    (bootTrace "Config" envC4 moduleImport).indexOf Ev.configFromObject
      < (bootTrace "Config" envC4 moduleImport).indexOf Ev.mountDash
    ∧ (bootTrace "Config" envC4 moduleImport).indexOf Ev.mountDash
      < (bootTrace "Config" envC4 moduleImport).indexOf Ev.protectDashViews
    ∧ (bootTrace "Config" envC4 moduleImport).indexOf Ev.protectDashViews
      < (bootTrace "Config" envC4 moduleImport).indexOf Ev.csrfInit
    ∧ (bootTrace "Config" envC4 moduleImport).indexOf Ev.csrfInit
      < (bootTrace "Config" envC4 moduleImport).indexOf Ev.dbInit
    ∧ (bootTrace "Config" envC4 moduleImport).indexOf Ev.dbInit
      < (bootTrace "Config" envC4 moduleImport).indexOf Ev.loginInit
    ∧ (bootTrace "Config" envC4 moduleImport).indexOf Ev.loginInit
      < (bootTrace "Config" envC4 moduleImport).indexOf Ev.uploadsInit
    ∧ (bootTrace "Config" envC4 moduleImport).indexOf Ev.uploadsInit
      < (bootTrace "Config" envC4 moduleImport).indexOf Ev.createAll
    ∧ (bootTrace "Config" envC4 moduleImport).indexOf Ev.createAll
      < (bootTrace "Config" envC4 moduleImport).indexOf Ev.loadNoc
    ∧ (bootTrace "Config" envC4 moduleImport).indexOf Ev.loadNoc
      < (bootTrace "Config" envC4 moduleImport).indexOf Ev.loadMedals
    ∧ (bootTrace "Config" envC4 moduleImport).indexOf Ev.loadMedals
      < (bootTrace "Config" envC4 moduleImport).indexOf Ev.registerMainBp
    ∧ (bootTrace "Config" envC4 moduleImport).indexOf Ev.registerMainBp
      < (bootTrace "Config" envC4 moduleImport).indexOf Ev.registerAuthBp
    ∧ (bootTrace "Config" envC4 moduleImport).indexOf Ev.registerAuthBp
      < (bootTrace "Config" envC4 moduleImport).indexOf Ev.ready :=
  startup_order_amended "Config" envC4 moduleImport [some "UK"] [[some "g"]] rfl rfl

/-- C10: at module import, before any application exists, the view name
`dash.dash.dispatch` is added to the CSRF protector's exempt-view set, and no
operation of the module — in particular no `create_app` run, successful or
not — ever changes that set, so the exemption holds for every application
subsequently built. -/
theorem csrf_exemption_invariant :
    "dash.dash.dispatch" ∈ moduleImport.csrf.exempt_views
    ∧ ∀ cfg env g, ((create_app cfg env g).2.1).csrf.exempt_views
        = g.csrf.exempt_views := by
  constructor
  · simp [moduleImport, csrfAtImport]
  · intro cfg env g
    obtain ⟨noc, med⟩ := env
    cases noc <;> cases med <;>
      simp [create_app, add_noc_data, add_medals_data, readCsv]

end ParalympicsApp
